import Mathlib

/-!
Shallow embedding of the assignment-api backend (src/app.js, src/db
helpers, src/database/schema.sql) and proofs about the claims of its
specification.

The database state is modelled as lists of rows (one list per table of
schema.sql). The SQL statements issued by the handlers are translated
statement-by-statement into pure functions on that state. `src/app.js`
contains two textually distinct definitions of every route handler; since
later JavaScript function declarations of the same name override earlier
ones, the second set (lines 546-725) is the effective one and is embedded
under the source names, while the shadowed first set (lines 70-485) is
embedded under a `_orig` suffix where a claim needs it.
-/

namespace AssignmentApi

/-- Row of the `users` table (schema.sql lines 4-10). -/
structure User where
  id : Nat
  email : String
  password_hash : String
  verified : Bool
  tracked_courses : List Int
deriving DecidableEq

/-- Row of the `courses` table (schema.sql lines 13-18). -/
structure Course where
  id : Nat
  name : String
  description : Option String
  instructor : Option String
deriving DecidableEq

/-- Row of the `assignments` table (schema.sql lines 21-28). -/
structure Assignment where
  id : Nat
  title : String
  description : Option String
  due_date : Option String
  course_id : Option Nat
  file_path : Option String
deriving DecidableEq

/-- The relational store: one list of rows per table, plus the SERIAL
counter for `users.id` (the other counters are not needed by any claim). -/
structure DB where
  users : List User
  courses : List Course
  assignments : List Assignment
  usersSeq : Nat
deriving DecidableEq

/-- db helper (src/unnamed/part_000 lines 12-20):
`UPDATE users SET tracked_courses = array_append(tracked_courses, $1)
WHERE id = $2`. `array_append` appends at the end of the array. -/
def addTrackedCourse (db : DB) (userId : Nat) (courseId : Int) : DB :=
  { db with users := db.users.map (fun u =>
      if u.id == userId then
        { u with tracked_courses := u.tracked_courses ++ [courseId] }
      else u) }

/-- db helper (src/unnamed/part_000 lines 23-31):
`UPDATE users SET tracked_courses = array_remove(tracked_courses, $1)
WHERE id = $2`. PostgreSQL `array_remove` removes every element equal to
its second argument. -/
def removeTrackedCourse (db : DB) (userId : Nat) (courseId : Int) : DB :=
  { db with users := db.users.map (fun u =>
      if u.id == userId then
        { u with tracked_courses := u.tracked_courses.filter (fun c => c != courseId) }
      else u) }

/-- db helper (src/unnamed/part_000 lines 34-43):
`SELECT tracked_courses FROM users WHERE id = $1`, then
`result.rows[0].tracked_courses`. When no row matches, `rows[0]` is
`undefined` and the access throws; that case is `none`. -/
def getTrackedCourses (db : DB) (userId : Nat) : Option (List Int) :=
  (db.users.find? (fun u => u.id == userId)).map (fun u => u.tracked_courses)

/-- An `UPDATE ... WHERE id = $n` touches exactly the rows whose id
matches, and row updates never change the id column, so the first row
found under the same id predicate is the updated image of the first row
found before. -/
theorem find_after_update (users : List User) (userId : Nat) (f : User → User)
    (hf : ∀ u, (f u).id = u.id) :
    (users.map (fun u => if u.id == userId then f u else u)).find?
        (fun u => u.id == userId)
      = (users.find? (fun u => u.id == userId)).map f := by
  induction users with
  | nil => rfl
  | cons u us ih =>
    by_cases h : u.id = userId
    · have hb : (u.id == userId) = true := by simpa using h
      simp only [List.map_cons, List.find?, hf, hb, if_true, Option.map_some']
    · have hb : (u.id == userId) = false := by simpa using h
      simp only [List.map_cons, List.find?, hb, Bool.false_eq_true, if_false, ih]

/-- Effect of `addTrackedCourse` on a subsequent `getTrackedCourses`. -/
theorem getTrackedCourses_addTrackedCourse (db : DB) (userId : Nat) (courseId : Int) :
    getTrackedCourses (addTrackedCourse db userId courseId) userId
      = (getTrackedCourses db userId).map (fun l => l ++ [courseId]) := by
  unfold getTrackedCourses addTrackedCourse
  rw [find_after_update]
  · cases db.users.find? (fun u => u.id == userId) <;> rfl
  · intro u; rfl

/-- Effect of `removeTrackedCourse` on a subsequent `getTrackedCourses`. -/
theorem getTrackedCourses_removeTrackedCourse (db : DB) (userId : Nat) (courseId : Int) :
    getTrackedCourses (removeTrackedCourse db userId courseId) userId
      = (getTrackedCourses db userId).map (fun l => l.filter (fun c => c != courseId)) := by
  unfold getTrackedCourses removeTrackedCourse
  rw [find_after_update]
  · cases db.users.find? (fun u => u.id == userId) <;> rfl
  · intro u; rfl

/-- Value of one column as `pg` hands a row to the handler and as
`res.json`/`res.send` serialize it. -/
inductive FieldVal where
  | s (v : String)
  | n (v : Nat)
  | b (v : Bool)
  | ints (v : List Int)
  | null
deriving DecidableEq

/-- A row object: field names paired with values, in column order. -/
abbrev Row := List (String × FieldVal)

/-- Result of `jwt.sign(payload, secret, { expiresIn })` as the handler
calls it: the payload fields it passes (`id`, `verified`), the signing
secret and the relative expiry in seconds. Opaque to clients. -/
structure SignedToken where
  id : Nat
  verified : Bool
  secret : String
  expiresIn : Nat
deriving DecidableEq

/-- JSON response body as produced by the handlers' `res.json`/`res.send`
calls. `undef` is `res.json(result.rows[0])` when the row set is empty
(`rows[0]` is `undefined`, serialized as an empty body). -/
inductive Body where
  | obj (fields : Row)
  | rows (rs : List Row)
  | list (l : List Int)
  | text (t : String)
  | auth (ok : Bool) (tok : SignedToken)
  | empty
  | undef
deriving DecidableEq

/-- An HTTP response: status code and body. -/
structure Response where
  status : Nat
  body : Body
deriving DecidableEq

/-- Result of running a handler on a store state: either a response
together with the store state afterwards, or an exception that escaped
the handler because it has no try/catch (the effective handlers at
src/app.js lines 695-725 have none). -/
inductive Outcome where
  | ok (resp : Response) (db : DB)
  | uncaught (db : DB)
deriving DecidableEq

/-- Store state after a handler ran (unchanged when the query threw
before mutating). -/
def Outcome.dbAfter : Outcome → DB
  | .ok _ db => db
  | .uncaught db => db

/-- Serialization of a `users` row selected with `SELECT *` or
`RETURNING *`: every column, `password_hash` included. -/
def serializeUser (u : User) : Row :=
  [("id", .n u.id), ("email", .s u.email), ("password_hash", .s u.password_hash),
   ("verified", .b u.verified), ("tracked_courses", .ints u.tracked_courses)]

/-- Serialization of an optional text column. -/
def optStr : Option String → FieldVal
  | some v => .s v
  | none => .null

/-- Serialization of an optional integer column. -/
def optNat : Option Nat → FieldVal
  | some v => .n v
  | none => .null

/-- Serialization of a `courses` row selected with `RETURNING *`. -/
def serializeCourse (c : Course) : Row :=
  [("id", .n c.id), ("name", .s c.name), ("description", optStr c.description),
   ("instructor", optStr c.instructor)]

/-- Serialization of an `assignments` row selected with `RETURNING *`. -/
def serializeAssignment (a : Assignment) : Row :=
  [("id", .n a.id), ("title", .s a.title), ("description", optStr a.description),
   ("due_date", optStr a.due_date), ("course_id", optNat a.course_id),
   ("file_path", optStr a.file_path)]

/-- Whether a field of the given name occurs anywhere in a response body. -/
def bodyHasField (name : String) : Body → Bool
  | .obj fields => fields.any (fun f => f.1 == name)
  | .rows rs => rs.any (fun r => r.any (fun f => f.1 == name))
  | _ => false

/-- Element of the module-level in-memory `users` collection that the
effective `loginUser` (src/app.js lines 555-570) reads: it accesses
`u.email`, `u.password`, `u.id` and `u.verified`. No declaration of this
collection exists anywhere in src/app.js. -/
structure MemUser where
  id : Nat
  email : String
  password : String
  verified : Bool
deriving DecidableEq

/-- Effective `loginUser` (src/app.js lines 555-570; the shadowed version
at lines 99-125 has the same statuses and token, differing only in error
body shape). `compareSync` stands for `bcrypt.compareSync`; `SECRET` is
`process.env.MY_SECRET_KEY`; `users` is the module-level in-memory
collection the code reads; `db` is the store connection in module scope,
which the body never touches. -/
def loginUser (compareSync : String → String → Bool) (SECRET : String)
    (users : List MemUser) (db : DB) (email password : String) : Response :=
  match users.find? (fun u => u.email == email) with
  | none => ⟨404, .text "User not found"⟩
  | some user =>
    if compareSync password user.password then
      ⟨200, .auth true ⟨user.id, user.verified, SECRET, 86400⟩⟩
    else ⟨401, .text "Invalid password"⟩

/-- Modelled from the spec: the login flow the specification requires,
which authenticates strictly against the persistence layer. The user
record looked up under the given email is the one in the user store, its
`password_hash` column is what the password is verified against, and
`AuthFailure` (unknown user / bad password) maps to 401. Used only to
compare the code's `loginUser` against the specified behavior. -/
def loginUserSpec (verify : String → String → Bool) (SECRET : String)
    (db : DB) (email password : String) : Response :=
  match db.users.find? (fun u => u.email == email) with
  | none => ⟨401, .text "Authentication failed"⟩
  | some user =>
    if verify password user.password_hash then
      ⟨200, .auth true ⟨user.id, user.verified, SECRET, 86400⟩⟩
    else ⟨401, .text "Authentication failed"⟩

/-- Effective `createUser` (src/app.js lines 572-591): checks for an
existing row under the email, answers 400 if found, otherwise hashes the
password, inserts the row and answers 201 with the full `RETURNING *`
row. `hashSync` stands for `bcrypt.hashSync(password, 8)`. SERIAL
assigns `usersSeq` as the new id. -/
def createUser (hashSync : String → String) (db : DB)
    (email password : String) : Response × DB :=
  if db.users.any (fun u => u.email == email) then
    (⟨400, .obj [("message", .s "Email already exists")]⟩, db)
  else
    let u : User := ⟨db.usersSeq, email, hashSync password, false, []⟩
    (⟨201, .obj (serializeUser u)⟩,
     { db with users := db.users ++ [u], usersSeq := db.usersSeq + 1 })

/-- Effective `getAllUsers` (src/app.js lines 657-660):
`SELECT * FROM users`, all rows serialized to the client. -/
def getAllUsers (db : DB) : Response :=
  ⟨200, .rows (db.users.map serializeUser)⟩

/-- Effective `updateCourse` (src/app.js lines 695-703): runs the UPDATE
and answers 200 with `result.rows[0]` — no empty-result check and no
try/catch, so a missing id yields 200 with an undefined body and a store
failure escapes uncaught. -/
def updateCourse (fail : Bool) (db : DB) (id : Nat) (name : String)
    (description instructor : Option String) : Outcome :=
  if fail then .uncaught db
  else
    let db' := { db with courses := db.courses.map (fun c : Course =>
      if c.id == id then
        { c with name := name, description := description, instructor := instructor }
      else c) }
    let rows := (db'.courses.filter (fun c => c.id == id)).map serializeCourse
    .ok ⟨200, match rows.head? with | some r => .obj r | none => .undef⟩ db'

/-- Shadowed first `updateCourse` (src/app.js lines 397-415): same UPDATE,
but an empty `RETURNING *` row set yields 404 and a store failure is
caught and mapped to 500. -/
def updateCourse_orig (fail : Bool) (db : DB) (id : Nat) (name : String)
    (description instructor : Option String) : Outcome :=
  if fail then .ok ⟨500, .obj [("error", .s "Failed to update course.")]⟩ db
  else
    let db' := { db with courses := db.courses.map (fun c : Course =>
      if c.id == id then
        { c with name := name, description := description, instructor := instructor }
      else c) }
    let rows := (db'.courses.filter (fun c => c.id == id)).map serializeCourse
    match rows.head? with
    | some r => .ok ⟨200, .obj r⟩ db'
    | none => .ok ⟨404, .obj [("error", .s "Course not found.")]⟩ db'

/-- Effective `updateAssignment` (src/app.js lines 705-713): no
empty-result check, no try/catch. -/
def updateAssignment (fail : Bool) (db : DB) (id : Nat) (title : String)
    (description due_date : Option String) (course_id : Option Nat) : Outcome :=
  if fail then .uncaught db
  else
    let db' := { db with assignments := db.assignments.map (fun a : Assignment =>
      if a.id == id then
        { a with title := title, description := description,
                 due_date := due_date, course_id := course_id }
      else a) }
    let rows := (db'.assignments.filter (fun a => a.id == id)).map serializeAssignment
    .ok ⟨200, match rows.head? with | some r => .obj r | none => .undef⟩ db'

/-- Shadowed first `updateAssignment` (src/app.js lines 423-441): 404 on
an empty row set, 500 on a caught store failure. -/
def updateAssignment_orig (fail : Bool) (db : DB) (id : Nat) (title : String)
    (description due_date : Option String) (course_id : Option Nat) : Outcome :=
  if fail then .ok ⟨500, .obj [("error", .s "Failed to update assignment.")]⟩ db
  else
    let db' := { db with assignments := db.assignments.map (fun a : Assignment =>
      if a.id == id then
        { a with title := title, description := description,
                 due_date := due_date, course_id := course_id }
      else a) }
    let rows := (db'.assignments.filter (fun a => a.id == id)).map serializeAssignment
    match rows.head? with
    | some r => .ok ⟨200, .obj r⟩ db'
    | none => .ok ⟨404, .obj [("error", .s "Assignment not found.")]⟩ db'

/-- Effective `deleteCourse` (src/app.js lines 715-719):
`DELETE FROM courses WHERE id = $1`, then 204 unconditionally — no
`RETURNING *` emptiness check, no try/catch. -/
def deleteCourse (fail : Bool) (db : DB) (id : Nat) : Outcome :=
  if fail then .uncaught db
  else .ok ⟨204, .empty⟩ { db with courses := db.courses.filter (fun c => c.id != id) }

/-- Shadowed first `deleteCourse` (src/app.js lines 449-463): the DELETE
uses `RETURNING *`; an empty row set yields 404, a caught store failure
yields 500. -/
def deleteCourse_orig (fail : Bool) (db : DB) (id : Nat) : Outcome :=
  if fail then .ok ⟨500, .obj [("error", .s "Failed to delete course.")]⟩ db
  else
    let deleted := db.courses.filter (fun c => c.id == id)
    let db' := { db with courses := db.courses.filter (fun c => c.id != id) }
    if deleted.isEmpty then .ok ⟨404, .obj [("error", .s "Course not found.")]⟩ db'
    else .ok ⟨204, .empty⟩ db'

/-- Effective `deleteAssignment` (src/app.js lines 721-725): 204
unconditionally, no try/catch. -/
def deleteAssignment (fail : Bool) (db : DB) (id : Nat) : Outcome :=
  if fail then .uncaught db
  else .ok ⟨204, .empty⟩
    { db with assignments := db.assignments.filter (fun a => a.id != id) }

/-- Shadowed first `deleteAssignment` (src/app.js lines 471-485): 404 on
an empty row set, 500 on a caught store failure. -/
def deleteAssignment_orig (fail : Bool) (db : DB) (id : Nat) : Outcome :=
  if fail then .ok ⟨500, .obj [("error", .s "Failed to delete assignment.")]⟩ db
  else
    let deleted := db.assignments.filter (fun a => a.id == id)
    let db' := { db with assignments := db.assignments.filter (fun a => a.id != id) }
    if deleted.isEmpty then .ok ⟨404, .obj [("error", .s "Assignment not found.")]⟩ db'
    else .ok ⟨204, .empty⟩ db'

/-- Sample store used by the concrete evaluations below: one user who
tracks course 1, one course, one assignment; no entity has id 999. -/
def sampleDb : DB :=
  ⟨[⟨1, "a@x.com", "HASH1", false, [1]⟩],
   [⟨1, "Algebra", some "intro", some "Kim"⟩],
   [⟨1, "HW1", none, none, some 1, none⟩], 2⟩

/-- Claim C1: for every user and every courseId, `removeTrackedCourse`
removes every occurrence of courseId from that user's tracked sequence
(not just one), is a no-op rather than an error when courseId is absent
(it is a total function, and the observed list is unchanged), and a
subsequent `getTrackedCourses` returns a list not containing courseId. -/
theorem removeTrackedCourse_removes_all (db : DB) (userId : Nat) (courseId : Int) :
    (∀ l, getTrackedCourses (removeTrackedCourse db userId courseId) userId = some l →
      courseId ∉ l)
    ∧ (∀ l, getTrackedCourses db userId = some l → courseId ∉ l →
      getTrackedCourses (removeTrackedCourse db userId courseId) userId = some l) := by
  constructor
  · intro l hl
    rw [getTrackedCourses_removeTrackedCourse] at hl
    cases hg : getTrackedCourses db userId with
    | none => rw [hg] at hl; cases hl
    | some l0 =>
      rw [hg, Option.map_some'] at hl
      intro hmem
      have hle : l0.filter (fun c => c != courseId) = l := Option.some.inj hl
      rw [← hle] at hmem
      have := (List.mem_filter.mp hmem).2
      simp at this
  · intro l hg habs
    rw [getTrackedCourses_removeTrackedCourse, hg, Option.map_some']
    congr 1
    apply List.filter_eq_self.mpr
    intro c hc
    exact bne_iff_ne.mpr (fun hcc => habs (hcc ▸ hc))

/-- Claim C1 witness: on the store with user 1 tracking `[5, 7, 5]`,
removing course 5 leaves `[7]` (both occurrences gone, 5 excluded), and
removing the absent course 9 leaves `[5, 7, 5]` unchanged. -/
theorem removeTrackedCourse_removes_all_witness :
    ((5 : Int) ∉ ([7] : List Int))
    ∧ getTrackedCourses
        (removeTrackedCourse ⟨[⟨1, "a@x.com", "H", false, [5, 7, 5]⟩], [], [], 2⟩ 1 9) 1
      = some [5, 7, 5] :=
  ⟨(removeTrackedCourse_removes_all ⟨[⟨1, "a@x.com", "H", false, [5, 7, 5]⟩], [], [], 2⟩
      1 5).1 [7] (by decide),
   (removeTrackedCourse_removes_all ⟨[⟨1, "a@x.com", "H", false, [5, 7, 5]⟩], [], [], 2⟩
      1 9).2 [5, 7, 5] (by decide) (by decide)⟩

/-- Claim C2: the store does not deduplicate tracked courses: for a user
whose tracked list is currently `l`, adding the same courseId twice makes
a subsequent `getTrackedCourses` return `l ++ [courseId, courseId]` —
both entries stored, insertion order preserved. -/
theorem addTrackedCourse_no_dedup (db : DB) (userId : Nat) (courseId : Int) (l : List Int)
    (h : getTrackedCourses db userId = some l) :
    getTrackedCourses (addTrackedCourse (addTrackedCourse db userId courseId) userId courseId)
        userId = some (l ++ [courseId, courseId]) := by
  rw [getTrackedCourses_addTrackedCourse, getTrackedCourses_addTrackedCourse, h,
    Option.map_some', Option.map_some', List.append_assoc]
  rfl

/-- Claim C2 witness: tracking course 5 twice from an empty tracked list
yields `[5, 5]`, the duplicate-preserving example of the specification. -/
theorem addTrackedCourse_no_dedup_witness :
    getTrackedCourses (addTrackedCourse (addTrackedCourse
        ⟨[⟨1, "a@x.com", "H", false, []⟩], [], [], 2⟩ 1 5) 1 5) 1 = some [5, 5] :=
  addTrackedCourse_no_dedup ⟨[⟨1, "a@x.com", "H", false, []⟩], [], [], 2⟩ 1 5 []
    (by decide)

/-- Claim C3 counterexample: a login request whose email matches no user
is a failed authentication, yet the handler answers 404, not 401. -/
theorem loginUser_unknown_email_not_401 :
    (loginUser (fun _ _ => false) "secret" [] sampleDb "b@x.com" "pw").status = 404
    ∧ (loginUser (fun _ _ => false) "secret" [] sampleDb "b@x.com" "pw").status ≠ 401 := by
  constructor <;> decide

/-- Claim C3 (amended): a login whose user is found but whose password
does not match is answered 401; a login whose email matches no user in
the collection the handler reads is answered 404. -/
theorem loginUser_auth_failure_statuses (cmp : String → String → Bool) (S : String)
    (users : List MemUser) (db : DB) (email password : String) :
    (users.find? (fun u => u.email == email) = none →
      (loginUser cmp S users db email password).status = 404)
    ∧ (∀ u, users.find? (fun u => u.email == email) = some u →
      cmp password u.password = false →
      (loginUser cmp S users db email password).status = 401) := by
  constructor
  · intro h; simp [loginUser, h]
  · intro u hu hc; simp [loginUser, hu, hc]

/-- Claim C3 (amended) witness: with one in-memory user, a wrong password
gets 401 and an unknown email gets 404. -/
theorem loginUser_auth_failure_statuses_witness :
    (loginUser (fun _ _ => false) "s" [⟨1, "a@x.com", "pw1", false⟩] sampleDb
      "a@x.com" "bad").status = 401
    ∧ (loginUser (fun _ _ => false) "s" [⟨1, "a@x.com", "pw1", false⟩] sampleDb
      "c@x.com" "bad").status = 404 :=
  ⟨(loginUser_auth_failure_statuses (fun _ _ => false) "s" [⟨1, "a@x.com", "pw1", false⟩]
      sampleDb "a@x.com" "bad").2 ⟨1, "a@x.com", "pw1", false⟩ (by decide) (by decide),
   (loginUser_auth_failure_statuses (fun _ _ => false) "s" [⟨1, "a@x.com", "pw1", false⟩]
      sampleDb "c@x.com" "bad").1 (by decide)⟩

/-- Claim C4: the login handler never consults the persistence layer —
its result is invariant under every change of the user store — and at a
concrete input where the store-backed login required by the specification
succeeds (the stored record matches), the code's login answers 404
because the record is not in the module-level in-memory collection it
reads instead. -/
theorem loginUser_ignores_user_store :
    (∀ cmp S us db db' e p, loginUser cmp S us db e p = loginUser cmp S us db' e p)
    ∧ (loginUserSpec (fun p h => p == "pw1" && h == "HASH1") "secret" sampleDb
        "a@x.com" "pw1").status = 200
    ∧ (loginUser (fun p h => p == "pw1" && h == "HASH1") "secret" [] sampleDb
        "a@x.com" "pw1").status = 404 :=
  ⟨fun _ _ _ _ _ _ _ => rfl, by decide, by decide⟩

/-- Claim C5: the password hash is returned to clients: the 201 body of
`createUser` (the `RETURNING *` row) and the rows of `getAllUsers`
(`SELECT * FROM users`) both carry a `password_hash` field. -/
theorem password_hash_returned_to_clients :
    bodyHasField "password_hash"
        (createUser (fun p => String.append "h:" p) ⟨[], [], [], 1⟩ "a@x.com" "pw1").1.body
      = true
    ∧ bodyHasField "password_hash" (getAllUsers sampleDb).body = true := by
  constructor <;> decide

/-- Claim C6: on a store whose only course and assignment have id 1, the
effective handlers answer a missing id 999 with 204 (deletes) and 200
with an undefined body (updates) while leaving the store unchanged —
NotFound is never signalled. -/
theorem missing_target_not_signalled :
    deleteCourse false sampleDb 999 = .ok ⟨204, .empty⟩ sampleDb
    ∧ deleteAssignment false sampleDb 999 = .ok ⟨204, .empty⟩ sampleDb
    ∧ updateCourse false sampleDb 999 "X" none none = .ok ⟨200, .undef⟩ sampleDb
    ∧ updateAssignment false sampleDb 999 "Y" none none none = .ok ⟨200, .undef⟩ sampleDb := by
  refine ⟨?_, ?_, ?_, ?_⟩ <;> decide

/-- Claim C7: a registration under an email that already has a row in the
user store is answered 400 and the store is returned unchanged — no row
is inserted. -/
theorem createUser_duplicate_email (hash : String → String) (db : DB)
    (email password : String)
    (h : db.users.any (fun u => u.email == email) = true) :
    (createUser hash db email password).1.status = 400
    ∧ (createUser hash db email password).2 = db := by
  constructor <;> simp [createUser, h]

/-- Claim C7 witness: re-registering the already-present email of the
sample store answers 400 and leaves the store as it was. -/
theorem createUser_duplicate_email_witness :
    (createUser (fun p => p) sampleDb "a@x.com" "pw").1.status = 400
    ∧ (createUser (fun p => p) sampleDb "a@x.com" "pw").2 = sampleDb :=
  createUser_duplicate_email (fun p => p) sampleDb "a@x.com" "pw" (by decide)

/-- Claim C8: deleting a course touches only the `courses` table: the
`users` rows — tracked lists included — are identical afterwards, and
every `getTrackedCourses` observation is unchanged, so a tracked
identifier of the deleted course dangles rather than being cleaned up. -/
theorem deleteCourse_preserves_tracked (fail : Bool) (db : DB) (id userId : Nat) :
    ((deleteCourse fail db id).dbAfter).users = db.users
    ∧ getTrackedCourses ((deleteCourse fail db id).dbAfter) userId
      = getTrackedCourses db userId := by
  cases fail <;> exact ⟨rfl, rfl⟩

/-- Claim C9: whenever the login handler succeeds, the token it issues is
`jwt.sign` of exactly the found user's id and verified flag, signed with
the server-held secret, with a fixed relative expiry of 86400 seconds. -/
theorem loginUser_token_contents (cmp : String → String → Bool) (S : String)
    (users : List MemUser) (db : DB) (email password : String) (u : MemUser)
    (hfind : users.find? (fun v => v.email == email) = some u)
    (hcmp : cmp password u.password = true) :
    loginUser cmp S users db email password
      = ⟨200, .auth true ⟨u.id, u.verified, S, 86400⟩⟩ := by
  simp [loginUser, hfind, hcmp]

/-- Claim C9 witness: a successful concrete login issues the token with
the user's id 7, verified flag, the secret, and expiry 86400. -/
theorem loginUser_token_contents_witness :
    loginUser (fun p h => p == h) "secret" [⟨7, "a@x.com", "pw1", true⟩] sampleDb
        "a@x.com" "pw1"
      = ⟨200, .auth true ⟨7, true, "secret", 86400⟩⟩ :=
  loginUser_token_contents (fun p h => p == h) "secret" [⟨7, "a@x.com", "pw1", true⟩]
    sampleDb "a@x.com" "pw1" ⟨7, "a@x.com", "pw1", true⟩ (by decide) (by decide)

/-- Claim C10: for each of the four catalog write handlers, the two
definitions in src/app.js are not behaviorally equivalent: on a missing
id the shadowed first definition answers 404 where the effective second
answers 204 or 200-with-undefined-body, and on a store failure the first
catches and answers 500 where the second lets the exception escape. -/
theorem duplicate_handler_versions_diverge :
    (updateCourse_orig false sampleDb 999 "X" none none
        = .ok ⟨404, .obj [("error", .s "Course not found.")]⟩ sampleDb
      ∧ updateCourse false sampleDb 999 "X" none none = .ok ⟨200, .undef⟩ sampleDb)
    ∧ (updateCourse_orig true sampleDb 1 "X" none none
        = .ok ⟨500, .obj [("error", .s "Failed to update course.")]⟩ sampleDb
      ∧ updateCourse true sampleDb 1 "X" none none = .uncaught sampleDb)
    ∧ (updateAssignment_orig false sampleDb 999 "Y" none none none
        = .ok ⟨404, .obj [("error", .s "Assignment not found.")]⟩ sampleDb
      ∧ updateAssignment false sampleDb 999 "Y" none none none = .ok ⟨200, .undef⟩ sampleDb)
    ∧ (updateAssignment_orig true sampleDb 1 "Y" none none none
        = .ok ⟨500, .obj [("error", .s "Failed to update assignment.")]⟩ sampleDb
      ∧ updateAssignment true sampleDb 1 "Y" none none none = .uncaught sampleDb)
    ∧ (deleteCourse_orig false sampleDb 999
        = .ok ⟨404, .obj [("error", .s "Course not found.")]⟩ sampleDb
      ∧ deleteCourse false sampleDb 999 = .ok ⟨204, .empty⟩ sampleDb)
    ∧ (deleteCourse_orig true sampleDb 1
        = .ok ⟨500, .obj [("error", .s "Failed to delete course.")]⟩ sampleDb
      ∧ deleteCourse true sampleDb 1 = .uncaught sampleDb)
    ∧ (deleteAssignment_orig false sampleDb 999
        = .ok ⟨404, .obj [("error", .s "Assignment not found.")]⟩ sampleDb
      ∧ deleteAssignment false sampleDb 999 = .ok ⟨204, .empty⟩ sampleDb)
    ∧ (deleteAssignment_orig true sampleDb 1
        = .ok ⟨500, .obj [("error", .s "Failed to delete assignment.")]⟩ sampleDb
      ∧ deleteAssignment true sampleDb 1 = .uncaught sampleDb) := by
  refine ⟨⟨?_, ?_⟩, ⟨?_, ?_⟩, ⟨?_, ?_⟩, ⟨?_, ?_⟩, ⟨?_, ?_⟩, ⟨?_, ?_⟩, ⟨?_, ?_⟩, ⟨?_, ?_⟩⟩
    <;> decide

end AssignmentApi
